import Mathlib

/-
Verification of the dataset-export script gen_data.py.

The script is a straight-line pipeline:
  housing = fetch_california_housing()
  features, targets = pd.DataFrame(housing.data), pd.DataFrame(housing.target)
  features.to_csv("features.csv", index=False, header=False)
  targets.to_csv("targets.csv", index=False, header=False)

We embed the data model and the library collaborators shallowly:
  * the loaded dataset is a feature matrix (list of rows) plus a target
    vector (list of values), over an abstract value type Val;
  * pd.DataFrame keeps the matrix rows as they are and turns the 1-D
    target vector into a single-column table;
  * DataFrame.to_csv with index=False, header=False and no float_format
    serializes each row as its fields rendered by the runtime's default
    representation (an abstract rep : Val → List Char), joined by commas
    and terminated by a newline, with no header line and no index column;
  * the run itself (fetch, then two sequential writes, exceptions
    propagating) is a function of an explicit world: the fetch outcome and
    the outcome of each of the two write calls, acting on a tiny
    filesystem holding the two output paths.
File contents are lists of characters, so byte-level facts (line counts,
field splitting, truncation) are stated directly.
-/

namespace GenData

/-- In-memory dataset as returned by the loader: a numeric feature matrix
(one inner list per sample) and a target vector (one value per sample). -/
structure Dataset (Val : Type) where
  data : List (List Val)
  target : List Val

/-- Conversion of the raw feature matrix into a tabular structure,
as in pd.DataFrame(housing.data): rows are kept exactly as loaded. -/
def dataFrameOfMatrix {Val : Type} (m : List (List Val)) : List (List Val) := m

/-- Conversion of the raw 1-D target vector into a single-column tabular
structure, as in pd.DataFrame(housing.target): one row per value. -/
def dataFrameOfVector {Val : Type} (v : List Val) : List (List Val) :=
  v.map (fun x => [x])

/-- Serialization of one table row: each field rendered by the default
representation rep, fields joined by commas. -/
def csvRow {Val : Type} (rep : Val → List Char) : List Val → List Char
  | [] => []
  | x :: t => rep x ++ (t.map (fun y => ',' :: rep y)).flatten

/-- DataFrame.to_csv with index=False and header=False: every row of the
table becomes one line terminated by a newline; no header line is emitted
and no index column is prepended. -/
def to_csv {Val : Type} (rep : Val → List Char) (df : List (List Val)) : List Char :=
  (df.map (fun r => csvRow rep r ++ ['\n'])).flatten

/-- Content written to features.csv for a loaded dataset. -/
def featuresCSV {Val : Type} (rep : Val → List Char) (ds : Dataset Val) : List Char :=
  to_csv rep (dataFrameOfMatrix ds.data)

/-- Content written to targets.csv for a loaded dataset. -/
def targetsCSV {Val : Type} (rep : Val → List Char) (ds : Dataset Val) : List Char :=
  to_csv rep (dataFrameOfVector ds.target)

/-- Observer splitting a character list at every occurrence of a
separator character (the pieces do not contain the separator). -/
def splitOnChar (sep : Char) : List Char → List (List Char)
  | [] => [[]]
  | c :: cs =>
    let r := splitOnChar sep cs
    if c = sep then [] :: r else (c :: r.headI) :: r.tail

/-- Observer: the lines of a file whose every line is newline-terminated
(the final empty piece after the last newline is not a line). -/
def fileLines (content : List Char) : List (List Char) :=
  (splitOnChar '\n' content).dropLast

/-- Observer: the comma-separated fields of one line. -/
def lineFields (line : List Char) : List (List Char) :=
  splitOnChar ',' line

/-- Observer: the number of (newline-terminated) rows in a file. -/
def numLines (content : List Char) : Nat :=
  (fileLines content).length

/-- A value whose rendering contains neither a comma nor a newline, as is
the case for the decimal representation of a number. -/
def cleanVal {Val : Type} (rep : Val → List Char) (x : Val) : Prop :=
  ',' ∉ rep x ∧ '\n' ∉ rep x

/-- Every value in the dataset renders without commas and newlines. -/
def cleanDataset {Val : Type} (rep : Val → List Char) (ds : Dataset Val) : Prop :=
  (∀ r ∈ ds.data, ∀ x ∈ r, cleanVal rep x) ∧ (∀ x ∈ ds.target, cleanVal rep x)

/-- Outcome of one to_csv write call, as chosen by the environment:
success; failure to create or open the file (file untouched); or failure
after k characters have been written (file truncated to those k). -/
inductive WriteOutcome (E : Type) where
  | ok : WriteOutcome E
  | failOpen (e : E) : WriteOutcome E
  | failAt (k : Nat) (e : E) : WriteOutcome E

/-- The environment of one run: what the dataset fetch returns and how
each of the two write calls behaves. -/
structure World (Val E : Type) where
  fetchResult : Except E (Dataset Val)
  featuresWrite : WriteOutcome E
  targetsWrite : WriteOutcome E

/-- The observable filesystem: the contents of the two output paths
(none when the file does not exist). -/
structure FS where
  featuresFile : Option (List Char)
  targetsFile : Option (List Char)

/-- Effect of one write call on one file: success replaces the file with
the full content, open failure leaves the old state, and a mid-write
failure leaves a truncated file; failures surface the collaborator's
error unmodified. -/
def writeFile (content : List Char) (old : Option (List Char)) :
    WriteOutcome E → Option E × Option (List Char)
  | .ok => (none, some content)
  | .failOpen e => (some e, old)
  | .failAt k e => (some e, some (content.take k))

/-- The whole run of gen_data.py: fetch the dataset, then write
features.csv, then write targets.csv, sequentially; the first failure
aborts the run at once, propagating the underlying error, with no retry
and no cleanup of what was already written. -/
def runScript {Val E : Type} (rep : Val → List Char) (w : World Val E) (fs₀ : FS) :
    Except E Unit × FS :=
  match w.fetchResult with
  | .error e => (.error e, fs₀)
  | .ok ds =>
    match writeFile (featuresCSV rep ds) fs₀.featuresFile w.featuresWrite with
    | (some e, f) => (.error e, ⟨f, fs₀.targetsFile⟩)
    | (none, f) =>
      match writeFile (targetsCSV rep ds) fs₀.targetsFile w.targetsWrite with
      | (some e, t) => (.error e, ⟨f, t⟩)
      | (none, t) => (.ok (), ⟨f, t⟩)

/- Helper lemmas about the observers. -/

theorem splitOnChar_ne_nil (sep : Char) (l : List Char) : splitOnChar sep l ≠ [] := by
  cases l with
  | nil => simp [splitOnChar]
  | cons c cs =>
    simp only [splitOnChar]
    split <;> simp

theorem splitOnChar_sep_free (sep : Char) (a : List Char) (h : sep ∉ a) :
    splitOnChar sep a = [a] := by
  induction a with
  | nil => rfl
  | cons c cs ih =>
    have hc : ¬ c = sep := fun hh => h (by simp [hh])
    have hcs : sep ∉ cs := fun hh => h (by simp [hh])
    simp only [splitOnChar, if_neg hc, ih hcs]
    rfl

theorem splitOnChar_append (sep : Char) (a b : List Char) (h : sep ∉ a) :
    splitOnChar sep (a ++ sep :: b) = a :: splitOnChar sep b := by
  induction a with
  | nil =>
    show splitOnChar sep (sep :: b) = [] :: splitOnChar sep b
    simp [splitOnChar]
  | cons c cs ih =>
    have hc : ¬ c = sep := fun hh => h (by simp [hh])
    have hcs : sep ∉ cs := fun hh => h (by simp [hh])
    show splitOnChar sep (c :: (cs ++ sep :: b)) = (c :: cs) :: splitOnChar sep b
    simp only [splitOnChar, if_neg hc, ih hcs]
    rfl

theorem newline_notin_csvRow {Val : Type} (rep : Val → List Char) (r : List Val)
    (h : ∀ x ∈ r, '\n' ∉ rep x) : '\n' ∉ csvRow rep r := by
  cases r with
  | nil => simp [csvRow]
  | cons x t =>
    simp only [csvRow, List.mem_append, List.mem_flatten, List.mem_map]
    rintro (hx | ⟨l, ⟨y, hy, rfl⟩, hl⟩)
    · exact h x (by simp) hx
    · rcases List.mem_cons.mp hl with h1 | h2
      · exact absurd h1 (by decide)
      · exact h y (by simp [hy]) h2

theorem splitOnChar_join_rows (rows : List (List Char))
    (h : ∀ r ∈ rows, '\n' ∉ r) :
    splitOnChar '\n' ((rows.map (fun r => r ++ ['\n'])).flatten) = rows ++ [[]] := by
  induction rows with
  | nil => rfl
  | cons r rs ih =>
    have hr : '\n' ∉ r := h r (by simp)
    have : (((r :: rs).map (fun r => r ++ ['\n'])).flatten)
        = r ++ '\n' :: ((rs.map (fun r => r ++ ['\n'])).flatten) := by
      simp
    rw [this, splitOnChar_append _ _ _ hr, ih (fun r hr => h r (by simp [hr]))]
    rfl

theorem fileLines_to_csv {Val : Type} (rep : Val → List Char) (df : List (List Val))
    (h : ∀ r ∈ df, ∀ x ∈ r, '\n' ∉ rep x) :
    fileLines (to_csv rep df) = df.map (csvRow rep) := by
  unfold fileLines to_csv
  rw [show (df.map (fun r => csvRow rep r ++ ['\n']))
      = ((df.map (csvRow rep)).map (fun r => r ++ ['\n'])) by simp]
  rw [splitOnChar_join_rows _ (by
    intro r hr
    rcases List.mem_map.mp hr with ⟨row, hrow, rfl⟩
    exact newline_notin_csvRow rep row (h row hrow))]
  simp

theorem csvRow_singleton {Val : Type} (rep : Val → List Char) (x : Val) :
    csvRow rep [x] = rep x := by
  simp [csvRow]

theorem lineFields_csvRow {Val : Type} (rep : Val → List Char) (x : Val) (t : List Val)
    (h : ∀ y ∈ x :: t, ',' ∉ rep y) :
    lineFields (csvRow rep (x :: t)) = (x :: t).map rep := by
  induction t generalizing x with
  | nil =>
    show splitOnChar ',' (csvRow rep [x]) = [rep x]
    rw [csvRow_singleton]
    exact splitOnChar_sep_free _ _ (h x (by simp))
  | cons y t ih =>
    have hstep : csvRow rep (x :: y :: t) = rep x ++ ',' :: csvRow rep (y :: t) := by
      simp [csvRow]
    show splitOnChar ',' (csvRow rep (x :: y :: t)) = (x :: y :: t).map rep
    rw [hstep, splitOnChar_append _ _ _ (h x (by simp))]
    have ht := ih y (fun z hz => h z (List.mem_cons_of_mem x hz))
    rw [show lineFields (csvRow rep (y :: t)) = splitOnChar ',' (csvRow rep (y :: t)) from rfl] at ht
    rw [ht]
    rfl

theorem fileLines_featuresCSV {Val : Type} (rep : Val → List Char) (ds : Dataset Val)
    (h : cleanDataset rep ds) :
    fileLines (featuresCSV rep ds) = ds.data.map (csvRow rep) := by
  unfold featuresCSV dataFrameOfMatrix
  exact fileLines_to_csv rep ds.data (fun r hr x hx => (h.1 r hr x hx).2)

theorem fileLines_targetsCSV {Val : Type} (rep : Val → List Char) (ds : Dataset Val)
    (h : cleanDataset rep ds) :
    fileLines (targetsCSV rep ds) = ds.target.map (fun x => csvRow rep [x]) := by
  unfold targetsCSV dataFrameOfVector
  rw [fileLines_to_csv rep (ds.target.map (fun x => [x])) (by
    intro r hr x hx
    rcases List.mem_map.mp hr with ⟨v, hv, rfl⟩
    simp only [List.mem_singleton] at hx
    subst hx
    exact (h.2 _ hv).2)]
  simp

theorem getD_map {α β : Type} (f : α → β) (l : List α) (i : Nat) (d : β)
    (h : i < l.length) :
    (l.map f).getD i d = f (l.get ⟨i, h⟩) := by
  induction l generalizing i with
  | nil => cases h
  | cons a t ih =>
    cases i with
    | zero => rfl
    | succ n => exact ih n (Nat.lt_of_succ_lt_succ h)

theorem lineFields_featuresCSV_getD {Val : Type} (rep : Val → List Char)
    (ds : Dataset Val) (hclean : cleanDataset rep ds) (i : Nat)
    (hd : i < ds.data.length) (hne : ds.data.get ⟨i, hd⟩ ≠ []) :
    lineFields ((fileLines (featuresCSV rep ds)).getD i [])
      = (ds.data.get ⟨i, hd⟩).map rep := by
  rw [fileLines_featuresCSV rep ds hclean, getD_map _ _ _ _ hd]
  obtain ⟨x, t, hxt⟩ : ∃ x t, ds.data.get ⟨i, hd⟩ = x :: t := by
    cases hg : ds.data.get ⟨i, hd⟩ with
    | nil => exact absurd hg hne
    | cons x t => exact ⟨x, t, rfl⟩
  rw [hxt]
  refine lineFields_csvRow rep x t (fun y hy => ?_)
  have hmem : y ∈ ds.data.get ⟨i, hd⟩ := by rw [hxt]; exact hy
  exact (hclean.1 _ (ds.data.get_mem _ _) y hmem).1

theorem lineFields_targetsCSV_getD {Val : Type} (rep : Val → List Char)
    (ds : Dataset Val) (hclean : cleanDataset rep ds) (i : Nat)
    (ht : i < ds.target.length) :
    lineFields ((fileLines (targetsCSV rep ds)).getD i [])
      = [rep (ds.target.get ⟨i, ht⟩)] := by
  rw [fileLines_targetsCSV rep ds hclean, getD_map _ _ _ _ ht]
  have := lineFields_csvRow rep (ds.target.get ⟨i, ht⟩) []
    (fun y hy => by
      simp only [List.mem_singleton] at hy
      subst hy
      exact (hclean.2 _ (ds.target.get_mem _ _)).1)
  simpa using this

/-- C1: for every run in which the dataset fetch succeeds — delivering the
loader's aligned dataset, whose values render without commas or newlines —
the number of rows written to features.csv equals the number of rows
written to targets.csv. -/
theorem c1_row_counts_equal {Val : Type} (rep : Val → List Char) (ds : Dataset Val)
    (hclean : cleanDataset rep ds)
    (hlen : ds.data.length = ds.target.length) :
    numLines (featuresCSV rep ds) = numLines (targetsCSV rep ds) := by
  unfold numLines
  rw [fileLines_featuresCSV rep ds hclean, fileLines_targetsCSV rep ds hclean]
  simp [hlen]

/-- C2: for every row index i, the fields on row i of features.csv and the
single field on row i of targets.csv are the renderings of sample i of the
loaded dataset: alignment survives the DataFrame conversions and both
writes. -/
theorem c2_row_alignment {Val : Type} (rep : Val → List Char) (ds : Dataset Val)
    (hclean : cleanDataset rep ds) (i : Nat)
    (hd : i < ds.data.length) (ht : i < ds.target.length)
    (hne : ds.data.get ⟨i, hd⟩ ≠ []) :
    lineFields ((fileLines (featuresCSV rep ds)).getD i [])
        = (ds.data.get ⟨i, hd⟩).map rep ∧
    lineFields ((fileLines (targetsCSV rep ds)).getD i [])
        = [rep (ds.target.get ⟨i, ht⟩)] :=
  ⟨lineFields_featuresCSV_getD rep ds hclean i hd hne,
   lineFields_targetsCSV_getD rep ds hclean i ht⟩

/-- C3: neither output file contains a header line or a leading index
column: each file has exactly one line per sample, and every line consists
of exactly that sample's data fields and nothing else. -/
theorem c3_no_header_no_index {Val : Type} (rep : Val → List Char) (ds : Dataset Val)
    (hclean : cleanDataset rep ds) (hne : ∀ r ∈ ds.data, r ≠ []) :
    ((fileLines (featuresCSV rep ds)).length = ds.data.length ∧
      ∀ i, (h : i < ds.data.length) →
        lineFields ((fileLines (featuresCSV rep ds)).getD i [])
          = (ds.data.get ⟨i, h⟩).map rep) ∧
    ((fileLines (targetsCSV rep ds)).length = ds.target.length ∧
      ∀ i, (h : i < ds.target.length) →
        lineFields ((fileLines (targetsCSV rep ds)).getD i [])
          = [rep (ds.target.get ⟨i, h⟩)]) := by
  refine ⟨⟨?_, ?_⟩, ⟨?_, ?_⟩⟩
  · rw [fileLines_featuresCSV rep ds hclean]; simp
  · intro i h
    exact lineFields_featuresCSV_getD rep ds hclean i h
      (hne _ (ds.data.get_mem _ _))
  · rw [fileLines_targetsCSV rep ds hclean]; simp
  · intro i h
    exact lineFields_targetsCSV_getD rep ds hclean i h

/-- C5: the order of rows in each output file equals the order of the
samples in the loaded dataset: line i of features.csv is the serialization
of feature row i, and line i of targets.csv the serialization of target
value i, with no reordering. -/
theorem c5_order_preserved {Val : Type} (rep : Val → List Char) (ds : Dataset Val)
    (hclean : cleanDataset rep ds) :
    fileLines (featuresCSV rep ds) = ds.data.map (csvRow rep) ∧
    fileLines (targetsCSV rep ds) = ds.target.map (fun x => rep x) := by
  refine ⟨fileLines_featuresCSV rep ds hclean, ?_⟩
  rw [fileLines_targetsCSV rep ds hclean]
  exact List.map_congr_left (fun x _ => csvRow_singleton rep x)

/-- C4: when the loaded dataset has 20640 samples of 8 feature columns,
features.csv holds exactly 20640 lines of 8 comma-separated fields each,
and targets.csv exactly 20640 lines of one field each. -/
theorem c4_shape_scenario {Val : Type} (rep : Val → List Char) (ds : Dataset Val)
    (hclean : cleanDataset rep ds)
    (hn : ds.data.length = 20640) (hcols : ∀ r ∈ ds.data, r.length = 8)
    (ht : ds.target.length = 20640) :
    numLines (featuresCSV rep ds) = 20640 ∧
    (∀ l ∈ fileLines (featuresCSV rep ds), (lineFields l).length = 8) ∧
    numLines (targetsCSV rep ds) = 20640 ∧
    (∀ l ∈ fileLines (targetsCSV rep ds), (lineFields l).length = 1) := by
  refine ⟨?_, ?_, ?_, ?_⟩
  · unfold numLines
    rw [fileLines_featuresCSV rep ds hclean]
    simp [hn]
  · intro l hl
    rw [fileLines_featuresCSV rep ds hclean] at hl
    rcases List.mem_map.mp hl with ⟨r, hr, rfl⟩
    obtain ⟨x, t, rfl⟩ : ∃ x t, r = x :: t := by
      cases r with
      | nil => simpa using hcols _ hr
      | cons x t => exact ⟨x, t, rfl⟩
    rw [lineFields_csvRow rep x t (fun y hy => (hclean.1 _ hr y hy).1)]
    simpa using hcols _ hr
  · unfold numLines
    rw [fileLines_targetsCSV rep ds hclean]
    simp [ht]
  · intro l hl
    rw [fileLines_targetsCSV rep ds hclean] at hl
    rcases List.mem_map.mp hl with ⟨x, hx, rfl⟩
    rw [show csvRow rep [x] = csvRow rep (x :: []) from rfl,
      lineFields_csvRow rep x [] (fun y hy => by
        simp only [List.mem_singleton] at hy
        subst hy
        exact (hclean.2 _ hx).1)]
    rfl

/-- C8: every field of both output files is exactly the default rendering
rep of the corresponding dataset value — no extra formatting, rounding or
truncation is applied between the dataset and the file. -/
theorem c8_default_representation {Val : Type} (rep : Val → List Char) (ds : Dataset Val)
    (hclean : cleanDataset rep ds) (hne : ∀ r ∈ ds.data, r ≠ []) :
    (fileLines (featuresCSV rep ds)).map lineFields
        = ds.data.map (fun r => r.map rep) ∧
    (fileLines (targetsCSV rep ds)).map lineFields
        = ds.target.map (fun x => [rep x]) := by
  constructor
  · rw [fileLines_featuresCSV rep ds hclean, List.map_map]
    refine List.map_congr_left (fun r hr => ?_)
    obtain ⟨x, t, rfl⟩ : ∃ x t, r = x :: t := by
      cases r with
      | nil => exact absurd rfl (hne _ hr)
      | cons x t => exact ⟨x, t, rfl⟩
    exact lineFields_csvRow rep x t (fun y hy => (hclean.1 _ hr y hy).1)
  · rw [fileLines_targetsCSV rep ds hclean, List.map_map]
    refine List.map_congr_left (fun x hx => ?_)
    have := lineFields_csvRow rep x [] (fun y hy => by
      simp only [List.mem_singleton] at hy
      subst hy
      exact (hclean.2 _ hx).1)
    simpa using this

/-- C6: the export is deterministic: two runs whose fetches return the
same dataset and whose writes succeed leave byte-identical features.csv
and targets.csv contents, whatever filesystem state each run started
from. -/
theorem c6_deterministic {Val E : Type} (rep : Val → List Char)
    (w₁ w₂ : World Val E) (fs₁ fs₂ : FS) (ds : Dataset Val)
    (h1 : w₁.fetchResult = .ok ds) (h2 : w₂.fetchResult = .ok ds)
    (h1f : w₁.featuresWrite = .ok) (h1t : w₁.targetsWrite = .ok)
    (h2f : w₂.featuresWrite = .ok) (h2t : w₂.targetsWrite = .ok) :
    (runScript rep w₁ fs₁).2 = (runScript rep w₂ fs₂).2 := by
  simp [runScript, h1, h2, h1f, h1t, h2f, h2t, writeFile]

/-- C7: any failure aborts the run at once with the collaborator's error
propagated unmodified: a fetch error surfaces before any write; a failure
of the features write surfaces before the targets write begins; and no
cleanup happens, so a mid-write failure leaves the truncated file in
place. -/
theorem c7_error_propagation {Val E : Type} (rep : Val → List Char)
    (w : World Val E) (fs₀ : FS) :
    (∀ e, w.fetchResult = .error e → runScript rep w fs₀ = (.error e, fs₀)) ∧
    (∀ ds e, w.fetchResult = .ok ds → w.featuresWrite = .failOpen e →
        runScript rep w fs₀ = (.error e, ⟨fs₀.featuresFile, fs₀.targetsFile⟩)) ∧
    (∀ ds k e, w.fetchResult = .ok ds → w.featuresWrite = .failAt k e →
        runScript rep w fs₀
          = (.error e, ⟨some ((featuresCSV rep ds).take k), fs₀.targetsFile⟩)) ∧
    (∀ ds e, w.fetchResult = .ok ds → w.featuresWrite = .ok →
        w.targetsWrite = .failOpen e →
        runScript rep w fs₀
          = (.error e, ⟨some (featuresCSV rep ds), fs₀.targetsFile⟩)) ∧
    (∀ ds k e, w.fetchResult = .ok ds → w.featuresWrite = .ok →
        w.targetsWrite = .failAt k e →
        runScript rep w fs₀
          = (.error e, ⟨some (featuresCSV rep ds),
              some ((targetsCSV rep ds).take k)⟩)) := by
  refine ⟨?_, ?_, ?_, ?_, ?_⟩
  · intro e he
    simp [runScript, he]
  · intro ds e hds hf
    simp [runScript, hds, hf, writeFile]
  · intro ds k e hds hf
    simp [runScript, hds, hf, writeFile]
  · intro ds e hds hf htg
    simp [runScript, hds, hf, htg, writeFile]
  · intro ds k e hds hf htg
    simp [runScript, hds, hf, htg, writeFile]

/-- C9: when the dataset fetch fails, the script performs no filesystem
write at all: both output paths are exactly as they were before the run. -/
theorem c9_fetch_failure_no_writes {Val E : Type} (rep : Val → List Char)
    (w : World Val E) (fs₀ : FS) (e : E)
    (h : w.fetchResult = .error e) :
    (runScript rep w fs₀).2 = fs₀ := by
  simp [runScript, h]

/-- C10: the two writes are sequential in a fixed order: targets.csv is
not touched unless features.csv was fully written first, a successful
features write leaves the complete features content whatever the targets
write then does, and a failing targets write leaves features.csv complete
with targets.csv truncated or untouched. -/
theorem c10_sequential_writes {Val E : Type} (rep : Val → List Char)
    (w : World Val E) (fs₀ : FS) (ds : Dataset Val)
    (hok : w.fetchResult = .ok ds) :
    ((∀ e, w.featuresWrite = .failOpen e →
        (runScript rep w fs₀).2.targetsFile = fs₀.targetsFile) ∧
     (∀ k e, w.featuresWrite = .failAt k e →
        (runScript rep w fs₀).2.targetsFile = fs₀.targetsFile)) ∧
    (w.featuresWrite = .ok →
        (runScript rep w fs₀).2.featuresFile = some (featuresCSV rep ds)) ∧
    (∀ k e, w.featuresWrite = .ok → w.targetsWrite = .failAt k e →
        (runScript rep w fs₀).2
          = ⟨some (featuresCSV rep ds), some ((targetsCSV rep ds).take k)⟩) ∧
    (∀ e, w.featuresWrite = .ok → w.targetsWrite = .failOpen e →
        (runScript rep w fs₀).2
          = ⟨some (featuresCSV rep ds), fs₀.targetsFile⟩) := by
  refine ⟨⟨?_, ?_⟩, ?_, ?_, ?_⟩
  · intro e hf
    simp [runScript, hok, hf, writeFile]
  · intro k e hf
    simp [runScript, hok, hf, writeFile]
  · intro hf
    cases htg : w.targetsWrite <;>
      simp [runScript, hok, hf, htg, writeFile]
  · intro k e hf htg
    simp [runScript, hok, hf, htg, writeFile]
  · intro e hf htg
    simp [runScript, hok, hf, htg, writeFile]

/- Concrete instances used by the witnesses. -/

/-- Constant single-digit default representation over a unit value type. -/
def repU : Unit → List Char := fun _ => ['0']

/-- A concrete two-sample dataset with one feature column. -/
def dsU : Dataset Unit := ⟨[[()], [()]], [(), ()]⟩

/-- A concrete dataset with 20640 samples and 8 feature columns. -/
def dsBig : Dataset Unit :=
  ⟨List.replicate 20640 (List.replicate 8 ()), List.replicate 20640 ()⟩

/-- An initially empty filesystem. -/
def fsEmpty : FS := ⟨none, none⟩

/-- An environment where the fetch and both writes succeed. -/
def wOk : World Unit Nat := ⟨.ok dsU, .ok, .ok⟩

/-- An environment where the dataset fetch fails with error 7. -/
def wFetchFail : World Unit Nat := ⟨.error 7, .ok, .ok⟩

/-- An environment where the targets write fails with error 3 after one
character. -/
def wTargetsFail : World Unit Nat := ⟨.ok dsU, .ok, .failAt 1 3⟩

theorem cleanDataset_dsU : cleanDataset repU dsU := by
  constructor
  · intro r hr x hx
    cases x
    exact ⟨by decide, by decide⟩
  · intro x hx
    cases x
    exact ⟨by decide, by decide⟩

theorem cleanDataset_dsBig : cleanDataset repU dsBig := by
  constructor
  · intro r hr x hx
    cases x
    exact ⟨by decide, by decide⟩
  · intro x hx
    cases x
    exact ⟨by decide, by decide⟩

theorem dsBig_data_len : dsBig.data.length = 20640 := by
  show (List.replicate 20640 (List.replicate 8 ())).length = 20640
  rw [List.length_replicate]

theorem dsBig_target_len : dsBig.target.length = 20640 := by
  show (List.replicate 20640 ()).length = 20640
  rw [List.length_replicate]

theorem dsBig_cols : ∀ r ∈ dsBig.data, r.length = 8 := by
  intro r hr
  have hmem : r ∈ List.replicate 20640 (List.replicate 8 ()) := hr
  have := List.eq_of_mem_replicate hmem
  subst this
  rw [List.length_replicate]

/-- Witness for C1 at a concrete two-sample dataset. -/
theorem c1_row_counts_equal_witness :
    numLines (featuresCSV repU dsU) = numLines (targetsCSV repU dsU) :=
  c1_row_counts_equal repU dsU cleanDataset_dsU (by decide)

/-- Witness for C2 at row 0 of a concrete dataset. -/
theorem c2_row_alignment_witness :
    lineFields ((fileLines (featuresCSV repU dsU)).getD 0 [])
        = (dsU.data.get ⟨0, by decide⟩).map repU ∧
    lineFields ((fileLines (targetsCSV repU dsU)).getD 0 [])
        = [repU (dsU.target.get ⟨0, by decide⟩)] :=
  c2_row_alignment repU dsU cleanDataset_dsU 0 (by decide) (by decide) (by decide)

/-- Witness for C3 at a concrete dataset. -/
theorem c3_no_header_no_index_witness :
    ((fileLines (featuresCSV repU dsU)).length = dsU.data.length ∧
      ∀ i, (h : i < dsU.data.length) →
        lineFields ((fileLines (featuresCSV repU dsU)).getD i [])
          = (dsU.data.get ⟨i, h⟩).map repU) ∧
    ((fileLines (targetsCSV repU dsU)).length = dsU.target.length ∧
      ∀ i, (h : i < dsU.target.length) →
        lineFields ((fileLines (targetsCSV repU dsU)).getD i [])
          = [repU (dsU.target.get ⟨i, h⟩)]) :=
  c3_no_header_no_index repU dsU cleanDataset_dsU (by decide)

/-- Witness for C4 at a concrete 20640-by-8 dataset. -/
theorem c4_shape_scenario_witness :
    numLines (featuresCSV repU dsBig) = 20640 ∧
    (∀ l ∈ fileLines (featuresCSV repU dsBig), (lineFields l).length = 8) ∧
    numLines (targetsCSV repU dsBig) = 20640 ∧
    (∀ l ∈ fileLines (targetsCSV repU dsBig), (lineFields l).length = 1) :=
  c4_shape_scenario repU dsBig cleanDataset_dsBig dsBig_data_len dsBig_cols
    dsBig_target_len

/-- Witness for C5 at a concrete dataset. -/
theorem c5_order_preserved_witness :
    fileLines (featuresCSV repU dsU) = dsU.data.map (csvRow repU) ∧
    fileLines (targetsCSV repU dsU) = dsU.target.map (fun x => repU x) :=
  c5_order_preserved repU dsU cleanDataset_dsU

/-- Witness for C6: two successful runs from different starting
filesystems leave the same files. -/
theorem c6_deterministic_witness :
    (runScript repU wOk fsEmpty).2 = (runScript repU wOk ⟨some ['x'], none⟩).2 :=
  c6_deterministic repU wOk wOk fsEmpty ⟨some ['x'], none⟩ dsU rfl rfl rfl rfl rfl rfl

/-- Witness for C7: a targets write failing after one character surfaces
error 3 and leaves the truncated file. -/
theorem c7_error_propagation_witness :
    runScript repU wTargetsFail fsEmpty
      = (.error 3, ⟨some (featuresCSV repU dsU),
          some ((targetsCSV repU dsU).take 1)⟩) :=
  (c7_error_propagation repU wTargetsFail fsEmpty).2.2.2.2 dsU 1 3 rfl rfl rfl

/-- Witness for C9: a failed fetch leaves the empty filesystem empty. -/
theorem c9_fetch_failure_no_writes_witness :
    (runScript repU wFetchFail fsEmpty).2 = fsEmpty :=
  c9_fetch_failure_no_writes repU wFetchFail fsEmpty 7 rfl

/-- Witness for C10: after a failing targets write the features file is
complete and the targets file truncated. -/
theorem c10_sequential_writes_witness :
    (runScript repU wTargetsFail fsEmpty).2
      = ⟨some (featuresCSV repU dsU), some ((targetsCSV repU dsU).take 1)⟩ :=
  (c10_sequential_writes repU wTargetsFail fsEmpty dsU rfl).2.2.1 1 3 rfl rfl

/-- Witness for C8 at a concrete dataset. -/
theorem c8_default_representation_witness :
    (fileLines (featuresCSV repU dsU)).map lineFields
        = dsU.data.map (fun r => r.map repU) ∧
    (fileLines (targetsCSV repU dsU)).map lineFields
        = dsU.target.map (fun x => [repU x]) :=
  c8_default_representation repU dsU cleanDataset_dsU (by decide)

end GenData
